import Mathlib

/-!
Shallow embedding of `src/mcp-server/src/server.py`, the session/cart/order
engine of the restaurant MCP server.  Python dicts keyed by strings become
functions `String → Option _`; `datetime.now()` and the random identifiers
(`uuid4`) become explicit parameters of the operations; Python floats
(menu prices) become rationals; Python `int` quantities become `Int`
(the code performs no validation on them).  Each tool either returns an
error payload or a success payload, modelled with `Except`, and is paired
with the server state after the call.
-/

deriving instance DecidableEq for Except

/-- A menu item as loaded from `menu_items.json` (read-only catalog). -/
structure MenuItem where
  id : String
  name : String
  category : String
  price : ℚ
  is_vegetarian : Bool
  is_vegan : Bool
  is_gluten_free : Bool
  allergens : List String
deriving DecidableEq

/-- One line of a session's cart, as built by `add_to_cart`
(`{"item_id": ..., "name": ..., "price": ..., "quantity": ...}`). -/
structure CartLine where
  item_id : String
  name : String
  price : ℚ
  quantity : Int
deriving DecidableEq

/-- A session record of `ACTIVE_SESSIONS`: cart plus timestamps. -/
structure Session where
  cart : List CartLine
  created_at : Nat
  last_active : Nat
deriving DecidableEq

/-- The `payment_info` sub-record of an order built by `checkout`. -/
structure PaymentRecord where
  method : String
  status : String
  transaction_id : String
deriving DecidableEq

/-- An order record of `ORDERS`, as built by `checkout`. -/
structure Order where
  order_id : String
  items : List CartLine
  total : ℚ
  status : String
  created_at : Nat
  customer_info : List (String × String)
  payment_info : PaymentRecord
deriving DecidableEq

/-- The whole server state: the menu catalog plus the two global maps
`ORDERS` and `ACTIVE_SESSIONS`. -/
structure ServerState where
  menu : List MenuItem
  orders : String → Option Order
  sessions : String → Option Session

/-- Point update of a string-keyed map (a Python dict assignment). -/
def updFn {α : Type} (m : String → Option α) (k : String) (v : α) :
    String → Option α :=
  fun k' => if k' = k then some v else m k'

/-- The `{cart, total}` success payload of the cart tools. -/
structure CartView where
  cart : List CartLine
  total : ℚ
deriving DecidableEq

/-- Embedding of `sum(i["price"] * i["quantity"] for i in cart)`. -/
def computeTotal (cart : List CartLine) : ℚ :=
  (cart.map (fun l => l.price * (l.quantity : ℚ))).sum

/-- Embedding of `next((i for i in MENU_ITEMS if i["id"] == item_id), None)`. -/
def findMenuItem (menu : List MenuItem) (item_id : String) : Option MenuItem :=
  menu.find? (fun i => i.id == item_id)

/-- The `for cart_item in cart: ... break` loop of `add_to_cart`: increment
the quantity of the first line whose `item_id` matches, leave the rest. -/
def bumpQuantity : List CartLine → String → Int → List CartLine
  | [], _, _ => []
  | l :: ls, item_id, q =>
    if l.item_id == item_id then { l with quantity := l.quantity + q } :: ls
    else l :: bumpQuantity ls item_id q

/-- The cart update performed by `add_to_cart`: the for/else either bumps
the first matching line or appends a fresh line with the catalog's current
name and price. -/
def addLines (cart : List CartLine) (item : MenuItem) (item_id : String)
    (quantity : Int) : List CartLine :=
  if cart.any (fun l => l.item_id == item_id) then bumpQuantity cart item_id quantity
  else cart ++ [{ item_id := item_id, name := item.name, price := item.price,
                  quantity := quantity }]

/-- Embedding of `add_to_cart(session_id, item_id, quantity)` (server.py lines 70-88). -/
def add_to_cart (st : ServerState) (now : Nat) (session_id item_id : String)
    (quantity : Int) : Except String CartView × ServerState :=
  match st.sessions session_id with
  | none => (.error "Invalid session ID", st)
  | some session =>
    match findMenuItem st.menu item_id with
    | none => (.error ("Item \x27" ++ item_id ++ "\x27 not found"), st)
    | some item =>
      let cart := addLines session.cart item item_id quantity
      let session' : Session := { session with cart := cart, last_active := now }
      (.ok { cart := cart, total := computeTotal cart },
       { st with sessions := updFn st.sessions session_id session' })

/-- Embedding of `remove_from_cart(session_id, item_id)` (server.py lines 90-101). -/
def remove_from_cart (st : ServerState) (now : Nat)
    (session_id item_id : String) : Except String CartView × ServerState :=
  match st.sessions session_id with
  | none => (.error "Invalid session ID", st)
  | some session =>
    let cart := session.cart.filter (fun l => l.item_id != item_id)
    let session' : Session := { session with cart := cart, last_active := now }
    (.ok { cart := cart, total := computeTotal cart },
     { st with sessions := updFn st.sessions session_id session' })

/-- Embedding of `get_cart(session_id)` (server.py lines 103-111): pure read. -/
def get_cart (st : ServerState) (session_id : String) :
    Except String CartView :=
  match st.sessions session_id with
  | none => .error "Invalid session ID"
  | some session =>
    .ok { cart := session.cart, total := computeTotal session.cart }

/-- Embedding of `(payment_info or {}).get('method', 'credit_card')`: lookup
of a key in an opaque string dict. -/
def lookupKey (d : List (String × String)) (k : String) : Option String :=
  (d.find? (fun p => p.1 == k)).map Prod.snd

/-- Embedding of `checkout(session_id, customer_info, payment_info)` (server.py lines
113-140).  `order_id` and `transaction_id` stand for the two fresh `uuid4`
draws; `now` for `datetime.now()`. -/
def checkout (st : ServerState) (now : Nat) (order_id transaction_id : String)
    (session_id : String) (customer_info : Option (List (String × String)))
    (payment_info : Option (List (String × String))) :
    Except String Order × ServerState :=
  match st.sessions session_id with
  | none => (.error "Invalid session ID", st)
  | some session =>
    if session.cart.isEmpty then
      (.error "Cannot checkout with empty cart", st)
    else
      let order : Order :=
        { order_id := order_id
          items := session.cart
          total := computeTotal session.cart
          status := "confirmed"
          created_at := now
          customer_info := customer_info.getD []
          payment_info :=
            { method := (lookupKey (payment_info.getD []) "method").getD "credit_card"
              status := "approved"
              transaction_id := transaction_id } }
      let session' : Session := { session with cart := [], last_active := now }
      (.ok order,
       { st with orders := updFn st.orders order_id order,
                 sessions := updFn st.sessions session_id session' })

/-- Embedding of `get_order_status(order_id)` (server.py lines 142-148): pure read. -/
def get_order_status (st : ServerState) (order_id : String) :
    Except String Order :=
  match st.orders order_id with
  | none => .error ("Order \x27" ++ order_id ++ "\x27 not found")
  | some o => .ok o

/-- Python's `str.lower()` on ASCII text: lowercase every character. -/
def strToLower (s : String) : String := ⟨s.data.map Char.toLower⟩

/-- The dietary branch of `find_items_by_criteria`: lowercase the
preference and filter only on the three recognized values. -/
def applyDietary (items : List MenuItem) (pref : String) : List MenuItem :=
  let p := strToLower pref
  if p = "vegetarian" then items.filter (fun i => i.is_vegetarian)
  else if p = "vegan" then items.filter (fun i => i.is_vegan)
  else if p = "gluten_free" then items.filter (fun i => i.is_gluten_free)
  else items

/-- Embedding of `find_items_by_criteria(dietary_preference, max_price,
exclude_allergens, category)` (server.py lines 36-60).  Python truthiness:
`None` and the empty string / empty list skip a filter. -/
def find_items_by_criteria (menu : List MenuItem)
    (dietary_preference : Option String) (max_price : Option ℚ)
    (exclude_allergens : Option (List String)) (category : Option String) :
    List MenuItem :=
  let f0 := menu
  let f1 := match dietary_preference with
            | some p => if p = "" then f0 else applyDietary f0 p
            | none => f0
  let f2 := match max_price with
            | some mp => f1.filter (fun i => i.price ≤ mp)
            | none => f1
  let f3 := match exclude_allergens with
            | some excl =>
              if excl.isEmpty then f2 else
                excl.foldl
                  (fun acc allergen =>
                    acc.filter
                      (fun i => !((i.allergens.map strToLower).contains (strToLower allergen))))
                  f2
            | none => f2
  let f4 := match category with
            | some c =>
              if c = "" then f3
              else f3.filter (fun i => strToLower i.category == strToLower c)
            | none => f3
  f4

/-- A single client call that mutates server state, with its timestamp and
(for checkout) its fresh identifiers made explicit. -/
inductive Op where
  | addOp (now : Nat) (session_id item_id : String) (quantity : Int)
  | removeOp (now : Nat) (session_id item_id : String)
  | checkoutOp (now : Nat) (order_id transaction_id session_id : String)
      (customer_info payment_info : Option (List (String × String)))
deriving DecidableEq

/-- The state transition of one call (result discarded). -/
def applyOp (st : ServerState) : Op → ServerState
  | .addOp now sid iid q => (add_to_cart st now sid iid q).2
  | .removeOp now sid iid => (remove_from_cart st now sid iid).2
  | .checkoutOp now oid tx sid ci pi => (checkout st now oid tx sid ci pi).2

/-- A sequence of calls, applied left to right. -/
def applyOps (st : ServerState) (ops : List Op) : ServerState :=
  ops.foldl applyOp st

/-- The order id an operation would write under, if any. -/
def Op.orderIdOf : Op → Option String
  | .checkoutOp _ oid _ _ _ _ => some oid
  | _ => none

/-- The timestamp carried by an operation. -/
def Op.timeOf : Op → Nat
  | .addOp now _ _ _ => now
  | .removeOp now _ _ => now
  | .checkoutOp now _ _ _ _ _ => now

/-! ### Concrete sample data, used by witnesses and counterexamples -/

/-- A two-item sample catalog (the real `menu_items.json` is not part of
the core source; any catalog works for the claims, which quantify over it). -/
def demoMenu : List MenuItem :=
  [{ id := "burger-01", name := "Classic Burger", category := "mains",
     price := 17/2, is_vegetarian := false, is_vegan := false,
     is_gluten_free := false, allergens := ["gluten"] },
   { id := "salad-01", name := "Garden Salad", category := "starters",
     price := 5, is_vegetarian := true, is_vegan := true,
     is_gluten_free := true, allergens := [] }]

/-- A session with an empty cart and `last_active = 5`. -/
def emptySession : Session := { cart := [], created_at := 0, last_active := 5 }

/-- A session holding two burgers. -/
def burgerSession : Session :=
  { cart := [{ item_id := "burger-01", name := "Classic Burger",
               price := 17/2, quantity := 2 }],
    created_at := 0, last_active := 5 }

/-- Sample state: one session `"s1"` with an empty cart, no orders. -/
def state0 : ServerState :=
  { menu := demoMenu
    orders := fun _ => none
    sessions := fun k => if k = "s1" then some emptySession else none }

/-- Sample state: one session `"s1"` holding two burgers, no orders. -/
def state1 : ServerState :=
  { menu := demoMenu
    orders := fun _ => none
    sessions := fun k => if k = "s1" then some burgerSession else none }

/-- A pre-existing order, for the immutability witness. -/
def demoOrder : Order :=
  { order_id := "ORD-1", items := burgerSession.cart, total := 17,
    status := "confirmed", created_at := 1, customer_info := [],
    payment_info := { method := "credit_card", status := "approved",
                      transaction_id := "TXN-1" } }

/-- Sample state: session `"s1"` with two burgers and one existing order. -/
def state2 : ServerState :=
  { menu := demoMenu
    orders := fun k => if k = "ORD-1" then some demoOrder else none
    sessions := fun k => if k = "s1" then some burgerSession else none }

example : (add_to_cart state0 7 "s1" "burger-01" 2).1 =
    .ok { cart := [{ item_id := "burger-01", name := "Classic Burger",
                     price := 17/2, quantity := 2 }], total := 17 } := by
  simp [add_to_cart, state0, emptySession, demoMenu, findMenuItem, addLines,
        bumpQuantity, computeTotal]

example : (checkout state1 9 "ORD-2" "TXN-2" "s1" none none).1 =
    .ok { order_id := "ORD-2", items := burgerSession.cart, total := 17,
          status := "confirmed", created_at := 9, customer_info := [],
          payment_info := { method := "credit_card", status := "approved",
                            transaction_id := "TXN-2" } } := by
  simp [checkout, state1, burgerSession, computeTotal, lookupKey]

/-! ### Claims -/

/-- C1: for every session whose cart is non-empty, a successful checkout
returns an order whose items and total equal the session's cart lines and
computed total immediately before the checkout, with status "confirmed"
and payment status "approved", and immediately afterwards the session's
cart is empty. -/
theorem checkout_snapshot_and_clears (st : ServerState) (now : Nat)
    (oid tx sid : String) (ci pi : Option (List (String × String)))
    (s : Session) (hs : st.sessions sid = some s) (hne : s.cart ≠ []) :
    ((checkout st now oid tx sid ci pi).1.toOption).map Order.items = some s.cart ∧
    ((checkout st now oid tx sid ci pi).1.toOption).map Order.total
      = some (computeTotal s.cart) ∧
    ((checkout st now oid tx sid ci pi).1.toOption).map Order.status
      = some "confirmed" ∧
    ((checkout st now oid tx sid ci pi).1.toOption).map
      (fun o => o.payment_info.status) = some "approved" ∧
    ((checkout st now oid tx sid ci pi).2.sessions sid).map Session.cart
      = some [] := by
  have hni : s.cart.isEmpty = false := by
    cases hc : s.cart with
    | nil => exact absurd hc hne
    | cons a as => rfl
  simp [checkout, hs, hni, updFn, Except.toOption]

theorem checkout_snapshot_and_clears_witness :
    state1.sessions "s1" = some burgerSession ∧ burgerSession.cart ≠ [] ∧
    (((checkout state1 9 "ORD-2" "TXN-2" "s1" none none).1.toOption).map
        Order.items = some burgerSession.cart ∧
      ((checkout state1 9 "ORD-2" "TXN-2" "s1" none none).1.toOption).map
        Order.total = some (computeTotal burgerSession.cart) ∧
      ((checkout state1 9 "ORD-2" "TXN-2" "s1" none none).1.toOption).map
        Order.status = some "confirmed" ∧
      ((checkout state1 9 "ORD-2" "TXN-2" "s1" none none).1.toOption).map
        (fun o => o.payment_info.status) = some "approved" ∧
      ((checkout state1 9 "ORD-2" "TXN-2" "s1" none none).2.sessions "s1").map
        Session.cart = some []) :=
  ⟨by simp [state1], by simp [burgerSession],
   checkout_snapshot_and_clears state1 9 "ORD-2" "TXN-2" "s1" none none
     burgerSession (by simp [state1]) (by simp [burgerSession])⟩

/-- C2: checkout on a session whose cart has zero lines returns an error,
creates no order, and leaves the whole server state (hence the session's
cart) unchanged. -/
theorem checkout_empty_cart_rejected (st : ServerState) (now : Nat)
    (oid tx sid : String) (ci pi : Option (List (String × String)))
    (s : Session) (hs : st.sessions sid = some s) (he : s.cart = []) :
    (checkout st now oid tx sid ci pi).1
      = .error "Cannot checkout with empty cart" ∧
    (checkout st now oid tx sid ci pi).2 = st := by
  simp [checkout, hs, he]

theorem checkout_empty_cart_rejected_witness :
    state0.sessions "s1" = some emptySession ∧ emptySession.cart = [] ∧
    ((checkout state0 10 "ORD-9" "TXN-9" "s1" none none).1
        = .error "Cannot checkout with empty cart" ∧
      (checkout state0 10 "ORD-9" "TXN-9" "s1" none none).2 = state0) :=
  ⟨by simp [state0], rfl,
   checkout_empty_cart_rejected state0 10 "ORD-9" "TXN-9" "s1" none none
     emptySession (by simp [state0]) rfl⟩

/-- C10: on a successful checkout, an omitted customer_info is recorded as
the empty map, and an omitted payment_info — or one lacking a "method"
key — yields payment method "credit_card". -/
theorem checkout_default_metadata (st : ServerState) (now : Nat)
    (oid tx sid : String) (ci pi : Option (List (String × String)))
    (pd : List (String × String)) (s : Session)
    (hs : st.sessions sid = some s) (hne : s.cart ≠ [])
    (hpd : lookupKey pd "method" = none) :
    ((checkout st now oid tx sid none pi).1.toOption).map Order.customer_info
      = some [] ∧
    ((checkout st now oid tx sid ci none).1.toOption).map
      (fun o => o.payment_info.method) = some "credit_card" ∧
    ((checkout st now oid tx sid ci (some pd)).1.toOption).map
      (fun o => o.payment_info.method) = some "credit_card" := by
  have hni : s.cart.isEmpty = false := by
    cases hc : s.cart with
    | nil => exact absurd hc hne
    | cons a as => rfl
  refine ⟨?_, ?_, ?_⟩
  · simp [checkout, hs, hni, Except.toOption]
  · simp [checkout, hs, hni, Except.toOption, lookupKey]
  · simp [checkout, hs, hni, Except.toOption, hpd]

theorem checkout_default_metadata_witness :
    state1.sessions "s1" = some burgerSession ∧ burgerSession.cart ≠ [] ∧
    lookupKey [("note", "rush")] "method" = none ∧
    (((checkout state1 9 "ORD-2" "TXN-2" "s1" none none).1.toOption).map
        Order.customer_info = some [] ∧
      ((checkout state1 9 "ORD-2" "TXN-2" "s1" none none).1.toOption).map
        (fun o => o.payment_info.method) = some "credit_card" ∧
      ((checkout state1 9 "ORD-2" "TXN-2" "s1" none
          (some [("note", "rush")])).1.toOption).map
        (fun o => o.payment_info.method) = some "credit_card") :=
  ⟨by simp [state1], by simp [burgerSession], by simp [lookupKey],
   checkout_default_metadata state1 9 "ORD-2" "TXN-2" "s1" none none
     [("note", "rush")] burgerSession (by simp [state1])
     (by simp [burgerSession]) (by simp [lookupKey])⟩

/-- C4 counterexample: the code performs no quantity validation at all —
`add_to_cart` with quantity 0 (which is `<= 0`) on a valid session and a
valid item succeeds and changes the cart, instead of failing with an
InvalidQuantity error as the claim states. -/
theorem add_nonpositive_quantity_accepted :
    (add_to_cart state0 7 "s1" "burger-01" 0).1 =
      .ok { cart := [{ item_id := "burger-01", name := "Classic Burger",
                       price := 17/2, quantity := 0 }], total := 0 } ∧
    ((add_to_cart state0 7 "s1" "burger-01" 0).2.sessions "s1").map Session.cart
      = some [{ item_id := "burger-01", name := "Classic Burger",
                price := 17/2, quantity := 0 }] := by
  constructor <;>
    simp [add_to_cart, state0, emptySession, demoMenu, findMenuItem, addLines,
          bumpQuantity, computeTotal, updFn, Except.toOption]

/-- C4 amended: `add_to_cart` fails with an item-not-found error and leaves
the state unchanged when the item is absent from the catalog; there is no
quantity validation — with a valid session and item, any quantity, including
`quantity <= 0`, is accepted. -/
theorem add_item_not_found_rejected (st : ServerState) (now : Nat)
    (sid iid : String) (q : Int) (s : Session)
    (hs : st.sessions sid = some s) :
    (findMenuItem st.menu iid = none →
      add_to_cart st now sid iid q
        = (.error ("Item \x27" ++ iid ++ "\x27 not found"), st)) ∧
    (∀ item, findMenuItem st.menu iid = some item →
      (add_to_cart st now sid iid q).1.toOption ≠ none) := by
  constructor
  · intro hni
    simp [add_to_cart, hs, hni]
  · intro item hit
    simp [add_to_cart, hs, hit, Except.toOption]

theorem add_item_not_found_rejected_witness :
    state0.sessions "s1" = some emptySession ∧
    findMenuItem state0.menu "nonexistent" = none ∧
    add_to_cart state0 7 "s1" "nonexistent" 1
      = (.error "Item \x27nonexistent\x27 not found", state0) ∧
    findMenuItem state0.menu "burger-01" = some (demoMenu.get ⟨0, by simp [demoMenu]⟩) ∧
    (add_to_cart state0 7 "s1" "burger-01" (-2)).1.toOption ≠ none :=
  ⟨by simp [state0],
   by simp [state0, findMenuItem, demoMenu],
   (add_item_not_found_rejected state0 7 "s1" "nonexistent" 1 emptySession
       (by simp [state0])).1
     (by simp [state0, findMenuItem, demoMenu]),
   by simp [state0, findMenuItem, demoMenu],
   (add_item_not_found_rejected state0 7 "s1" "burger-01" (-2) emptySession
       (by simp [state0])).2
     (demoMenu.get ⟨0, by simp [demoMenu]⟩)
     (by simp [state0, findMenuItem, demoMenu])⟩

/-- C5: the total reported by `add_to_cart`, `remove_from_cart` and
`get_cart` always equals the sum over the returned cart's lines of
`unit_price * quantity`, and the total of an empty cart is 0. -/
theorem reported_totals_consistent :
    computeTotal [] = 0 ∧
    (∀ st now sid iid q v, (add_to_cart st now sid iid q).1 = .ok v →
      v.total = computeTotal v.cart) ∧
    (∀ st now sid iid v, (remove_from_cart st now sid iid).1 = .ok v →
      v.total = computeTotal v.cart) ∧
    (∀ st sid v, get_cart st sid = .ok v → v.total = computeTotal v.cart) := by
  refine ⟨rfl, ?_, ?_, ?_⟩
  · intro st now sid iid q v hv
    cases hs : st.sessions sid with
    | none => simp [add_to_cart, hs] at hv
    | some s =>
      cases hit : findMenuItem st.menu iid with
      | none => simp [add_to_cart, hs, hit] at hv
      | some item =>
        simp [add_to_cart, hs, hit] at hv
        subst hv
        rfl
  · intro st now sid iid v hv
    cases hs : st.sessions sid with
    | none => simp [remove_from_cart, hs] at hv
    | some s =>
      simp [remove_from_cart, hs] at hv
      subst hv
      rfl
  · intro st sid v hv
    cases hs : st.sessions sid with
    | none => simp [get_cart, hs] at hv
    | some s =>
      simp [get_cart, hs] at hv
      subst hv
      rfl

/-- C7: removal is idempotent — on a valid session, removing the same
item twice yields the same reported cart, the same reported total, and the
same stored cart as removing it once; and removing an item with no line in
the cart is a no-op success that returns the unchanged cart and its total,
not an error. -/
theorem remove_idempotent_and_noop (st : ServerState) (now1 now2 : Nat)
    (sid iid : String) (s : Session) (hs : st.sessions sid = some s) :
    (((remove_from_cart (remove_from_cart st now1 sid iid).2 now2 sid iid).1.toOption).map
        CartView.cart
      = ((remove_from_cart st now1 sid iid).1.toOption).map CartView.cart ∧
    ((remove_from_cart (remove_from_cart st now1 sid iid).2 now2 sid iid).1.toOption).map
        CartView.total
      = ((remove_from_cart st now1 sid iid).1.toOption).map CartView.total ∧
    ((remove_from_cart (remove_from_cart st now1 sid iid).2 now2 sid iid).2.sessions sid).map
        Session.cart
      = ((remove_from_cart st now1 sid iid).2.sessions sid).map Session.cart) ∧
    ((∀ l ∈ s.cart, l.item_id ≠ iid) →
      (remove_from_cart st now1 sid iid).1
        = .ok { cart := s.cart, total := computeTotal s.cart }) := by
  constructor
  · have hfilter : (s.cart.filter (fun l => l.item_id != iid)).filter
        (fun l => l.item_id != iid) = s.cart.filter (fun l => l.item_id != iid) :=
      List.filter_eq_self.mpr (fun a ha => (List.mem_filter.mp ha).2)
    refine ⟨?_, ?_, ?_⟩ <;>
      simp [remove_from_cart, hs, updFn, Except.toOption, hfilter]
  · intro hnone
    have hfilter : s.cart.filter (fun l => l.item_id != iid) = s.cart :=
      List.filter_eq_self.mpr (fun a ha => by
        simpa using hnone a ha)
    simp [remove_from_cart, hs, hfilter]

theorem remove_idempotent_and_noop_witness :
    state1.sessions "s1" = some burgerSession ∧
    (∀ l ∈ burgerSession.cart, l.item_id ≠ "salad-01") ∧
    (((remove_from_cart (remove_from_cart state1 6 "s1" "burger-01").2 7 "s1"
          "burger-01").1.toOption).map CartView.cart
        = ((remove_from_cart state1 6 "s1" "burger-01").1.toOption).map
            CartView.cart ∧
      ((remove_from_cart (remove_from_cart state1 6 "s1" "burger-01").2 7 "s1"
          "burger-01").1.toOption).map CartView.total
        = ((remove_from_cart state1 6 "s1" "burger-01").1.toOption).map
            CartView.total ∧
      ((remove_from_cart (remove_from_cart state1 6 "s1" "burger-01").2 7 "s1"
          "burger-01").2.sessions "s1").map Session.cart
        = ((remove_from_cart state1 6 "s1" "burger-01").2.sessions "s1").map
            Session.cart) ∧
    (remove_from_cart state1 6 "s1" "salad-01").1
      = .ok { cart := burgerSession.cart, total := computeTotal burgerSession.cart } :=
  ⟨by simp [state1], by simp [burgerSession],
   (remove_idempotent_and_noop state1 6 7 "s1" "burger-01" burgerSession
      (by simp [state1])).1,
   (remove_idempotent_and_noop state1 6 7 "s1" "salad-01" burgerSession
      (by simp [state1])).2 (by simp [burgerSession])⟩

/-- Helper: the python for/break loop bumps exactly the first matching
line, leaving everything else (including the captured price) untouched. -/
theorem bumpQuantity_first_match (pre : List CartLine) (l : CartLine)
    (post : List CartLine) (iid : String) (q : Int)
    (hl : l.item_id = iid) (hpre : ∀ l' ∈ pre, l'.item_id ≠ iid) :
    bumpQuantity (pre ++ l :: post) iid q
      = pre ++ { l with quantity := l.quantity + q } :: post := by
  induction pre with
  | nil => simp [bumpQuantity, hl]
  | cons p ps ih =>
    have hp : (p.item_id == iid) = false := by
      simp [hpre p (List.mem_cons_self p ps)]
    simp only [List.cons_append, bumpQuantity, hp, Bool.false_eq_true,
      if_false, List.cons.injEq, true_and]
    exact ih (fun l' hl' => hpre l' (List.mem_cons_of_mem p hl'))

/-- Helper: bumping a quantity never changes which `item_id`s occur, nor
how often each occurs. -/
theorem bumpQuantity_countP (cart : List CartLine) (iid x : String) (q : Int) :
    (bumpQuantity cart iid q).countP (fun l => l.item_id == x)
      = cart.countP (fun l => l.item_id == x) := by
  induction cart with
  | nil => rfl
  | cons l ls ih =>
    by_cases h : (l.item_id == iid) = true
    · simp [bumpQuantity, h, List.countP_cons]
    · simp only [Bool.not_eq_true] at h
      simp [bumpQuantity, h, List.countP_cons, ih]

/-- C3: each cart holds at most one line per item_id — adding an item whose
id already has a line increments the first matching line's quantity and
keeps its originally captured price, adding a fresh id appends exactly one
new line, the at-most-one-line-per-id invariant is preserved, and adding
"burger-01" with quantity 2 then quantity 3 yields one line of quantity 5. -/
theorem cart_merge_semantics :
    (∀ st now sid iid q s item, st.sessions sid = some s →
      findMenuItem st.menu iid = some item →
      s.cart.any (fun l => l.item_id == iid) = false →
      ((add_to_cart st now sid iid q).1.toOption).map CartView.cart
        = some (s.cart ++ [{ item_id := iid, name := item.name,
                             price := item.price, quantity := q }])) ∧
    (∀ st now sid iid q s item pre l post, st.sessions sid = some s →
      findMenuItem st.menu iid = some item →
      s.cart = pre ++ l :: post → l.item_id = iid →
      (∀ l' ∈ pre, l'.item_id ≠ iid) →
      ((add_to_cart st now sid iid q).1.toOption).map CartView.cart
        = some (pre ++ { l with quantity := l.quantity + q } :: post)) ∧
    (∀ cart item iid q x,
      (∀ y : String, cart.countP (fun l => l.item_id == y) ≤ 1) →
      (addLines cart item iid q).countP (fun l => l.item_id == x) ≤ 1) ∧
    ((add_to_cart (add_to_cart state0 1 "s1" "burger-01" 2).2 2 "s1"
        "burger-01" 3).1.toOption).map CartView.cart
      = some [{ item_id := "burger-01", name := "Classic Burger",
                price := 17/2, quantity := 5 }] := by
  refine ⟨?_, ?_, ?_, ?_⟩
  · intro st now sid iid q s item hs hit hany
    simp [add_to_cart, hs, hit, addLines, hany, Except.toOption]
  · intro st now sid iid q s item pre l post hs hit hcart hl hpre
    have hany : ((pre ++ l :: post).any (fun c => c.item_id == iid)) = true := by
      simp [hl]
    have haddL : addLines s.cart item iid q
        = pre ++ { l with quantity := l.quantity + q } :: post := by
      rw [hcart]
      unfold addLines
      rw [if_pos hany]
      exact bumpQuantity_first_match pre l post iid q hl hpre
    simp [add_to_cart, hs, hit, Except.toOption, haddL]
  · intro cart item iid q x hinv
    by_cases hany : (cart.any (fun l => l.item_id == iid)) = true
    · simpa [addLines, hany, bumpQuantity_countP] using hinv x
    · simp only [Bool.not_eq_true] at hany
      have hnone : ∀ l ∈ cart, ¬((l.item_id == iid) = true) := by
        intro l hl
        have := List.any_eq_false.mp hany l hl
        simpa using this
      by_cases hx : iid = x
      · subst hx
        have hzero : cart.countP (fun l => l.item_id == iid) = 0 :=
          List.countP_eq_zero.mpr hnone
        simp [addLines, hany, List.countP_append, hzero, List.countP_cons]
      · have hxid : (iid == x) = false := by simp [hx]
        have := hinv x
        simp [addLines, hany, List.countP_append, List.countP_cons, hxid]
        omega
  · simp [add_to_cart, state0, emptySession, demoMenu, findMenuItem, addLines,
          bumpQuantity, computeTotal, updFn, Except.toOption]

theorem cart_merge_semantics_witness :
    ((add_to_cart state0 7 "s1" "salad-01" 1).1.toOption).map CartView.cart
      = some ([] ++ [{ item_id := "salad-01", name := "Garden Salad",
                       price := 5, quantity := 1 }]) ∧
    ((add_to_cart state1 7 "s1" "burger-01" 3).1.toOption).map CartView.cart
      = some ([] ++ [{ item_id := "burger-01", name := "Classic Burger",
                       price := 17/2, quantity := 2 + 3 }]) ∧
    (addLines burgerSession.cart
        (demoMenu.get ⟨1, by simp [demoMenu]⟩) "salad-01" 1).countP
      (fun l => l.item_id == "salad-01") ≤ 1 :=
  ⟨cart_merge_semantics.1 state0 7 "s1" "salad-01" 1 emptySession
     (demoMenu.get ⟨1, by simp [demoMenu]⟩) (by simp [state0])
     (by simp [state0, findMenuItem, demoMenu]) (by simp [emptySession]),
   by
     have := cart_merge_semantics.2.1 state1 7 "s1" "burger-01" 3 burgerSession
       (demoMenu.get ⟨0, by simp [demoMenu]⟩) []
       { item_id := "burger-01", name := "Classic Burger",
         price := 17/2, quantity := 2 } []
       (by simp [state1]) (by simp [state1, findMenuItem, demoMenu])
       (by simp [burgerSession]) rfl (by simp)
     simpa using this,
   cart_merge_semantics.2.2.1 burgerSession.cart
     (demoMenu.get ⟨1, by simp [demoMenu]⟩) "salad-01" 1 "salad-01"
     (fun y => le_trans (List.countP_le_length _) (by simp [burgerSession]))⟩

/-- Helper: no operation that does not write under `oid` changes what the
order map stores at `oid`. -/
theorem applyOp_preserves_order (st : ServerState) (op : Op) (oid : String)
    (h : op.orderIdOf ≠ some oid) :
    (applyOp st op).orders oid = st.orders oid := by
  cases op with
  | addOp now sid iid q =>
    cases hs : st.sessions sid with
    | none => simp [applyOp, add_to_cart, hs]
    | some s =>
      cases hit : findMenuItem st.menu iid with
      | none => simp [applyOp, add_to_cart, hs, hit]
      | some item => simp [applyOp, add_to_cart, hs, hit]
  | removeOp now sid iid =>
    cases hs : st.sessions sid with
    | none => simp [applyOp, remove_from_cart, hs]
    | some s => simp [applyOp, remove_from_cart, hs]
  | checkoutOp now oid' tx sid ci pi =>
    have hne : oid ≠ oid' := by
      intro he
      exact h (by simp [Op.orderIdOf, he])
    cases hs : st.sessions sid with
    | none => simp [applyOp, checkout, hs]
    | some s =>
      cases he : s.cart.isEmpty with
      | true => simp [applyOp, checkout, hs, he]
      | false => simp [applyOp, checkout, hs, he, updFn, hne]

/-- C6: once an order is stored, `get_order_status` returns the very same
order — items and total included — after any later sequence of adds,
removes and checkouts, as long as those checkouts run under fresh order
ids (the code draws them from uuid4). -/
theorem order_immutable_under_later_ops (st : ServerState) (oid : String)
    (o : Order) (ops : List Op) (ho : st.orders oid = some o)
    (hfresh : ∀ op ∈ ops, Op.orderIdOf op ≠ some oid) :
    get_order_status (applyOps st ops) oid = .ok o := by
  induction ops generalizing st with
  | nil => simp [applyOps, get_order_status, ho]
  | cons op ops ih =>
    have hstep : (applyOp st op).orders oid = some o := by
      rw [applyOp_preserves_order st op oid
        (hfresh op (List.mem_cons_self op ops))]
      exact ho
    have : applyOps st (op :: ops) = applyOps (applyOp st op) ops := rfl
    rw [this]
    exact ih (applyOp st op) hstep
      (fun op' hop' => hfresh op' (List.mem_cons_of_mem op hop'))

theorem order_immutable_under_later_ops_witness :
    state2.orders "ORD-1" = some demoOrder ∧
    (∀ op ∈ ([.addOp 11 "s1" "salad-01" 1,
              .removeOp 12 "s1" "burger-01",
              .checkoutOp 13 "ORD-2" "TXN-2" "s1" none none] : List Op),
      Op.orderIdOf op ≠ some "ORD-1") ∧
    get_order_status
      (applyOps state2 [.addOp 11 "s1" "salad-01" 1,
                        .removeOp 12 "s1" "burger-01",
                        .checkoutOp 13 "ORD-2" "TXN-2" "s1" none none])
      "ORD-1" = .ok demoOrder :=
  ⟨by simp [state2],
   by simp [Op.orderIdOf],
   order_immutable_under_later_ops state2 "ORD-1" demoOrder
     [.addOp 11 "s1" "salad-01" 1,
      .removeOp 12 "s1" "burger-01",
      .checkoutOp 13 "ORD-2" "TXN-2" "s1" none none]
     (by simp [state2]) (by simp [Op.orderIdOf])⟩

/-- C8 counterexample: a checkout attempt rejected for an empty cart does
NOT update `last_active` — the code returns the error before touching the
session.  At time 10 on a session whose `last_active` is 5, the rejected
checkout leaves `last_active` at 5, not 10. -/
theorem rejected_checkout_skips_touch :
    ((checkout state0 10 "ORD-9" "TXN-9" "s1" none none).2.sessions "s1").map
      Session.last_active = some 5 ∧ (5 : Nat) ≠ 10 := by
  constructor
  · simp [checkout, state0, emptySession]
  · decide

/-- Helper: any single operation either leaves a session record untouched
or stamps its `last_active` with the operation's own timestamp. -/
theorem applyOp_last_active (st : ServerState) (op : Op) (sid : String)
    (s s' : Session) (hs : st.sessions sid = some s)
    (hs' : (applyOp st op).sessions sid = some s') :
    s' = s ∨ s'.last_active = op.timeOf := by
  cases op with
  | addOp n sid0 iid0 q0 =>
    cases h0 : st.sessions sid0 with
    | none =>
      left
      rw [show applyOp st (.addOp n sid0 iid0 q0) = st by
            simp [applyOp, add_to_cart, h0], hs] at hs'
      exact (Option.some.injEq _ _ ▸ hs').symm
    | some s0 =>
      cases hit : findMenuItem st.menu iid0 with
      | none =>
        left
        rw [show applyOp st (.addOp n sid0 iid0 q0) = st by
              simp [applyOp, add_to_cart, h0, hit], hs] at hs'
        exact (Option.some.injEq _ _ ▸ hs').symm
      | some item =>
        by_cases hsid : sid = sid0
        · right
          subst hsid
          simp [applyOp, add_to_cart, h0, hit, updFn] at hs'
          rw [← hs']
          rfl
        · left
          simp [applyOp, add_to_cart, h0, hit, updFn, hsid, hs] at hs'
          exact hs'.symm
  | removeOp n sid0 iid0 =>
    cases h0 : st.sessions sid0 with
    | none =>
      left
      rw [show applyOp st (.removeOp n sid0 iid0) = st by
            simp [applyOp, remove_from_cart, h0], hs] at hs'
      exact (Option.some.injEq _ _ ▸ hs').symm
    | some s0 =>
      by_cases hsid : sid = sid0
      · right
        subst hsid
        simp [applyOp, remove_from_cart, h0, updFn] at hs'
        rw [← hs']
        rfl
      · left
        simp [applyOp, remove_from_cart, h0, updFn, hsid, hs] at hs'
        exact hs'.symm
  | checkoutOp n oid tx sid0 ci pi =>
    cases h0 : st.sessions sid0 with
    | none =>
      left
      rw [show applyOp st (.checkoutOp n oid tx sid0 ci pi) = st by
            simp [applyOp, checkout, h0], hs] at hs'
      exact (Option.some.injEq _ _ ▸ hs').symm
    | some s0 =>
      cases he : s0.cart.isEmpty with
      | true =>
        left
        rw [show applyOp st (.checkoutOp n oid tx sid0 ci pi) = st by
              simp [applyOp, checkout, h0, he], hs] at hs'
        exact (Option.some.injEq _ _ ▸ hs').symm
      | false =>
        by_cases hsid : sid = sid0
        · right
          subst hsid
          simp [applyOp, checkout, h0, he, updFn] at hs'
          rw [← hs']
          rfl
        · left
          simp [applyOp, checkout, h0, he, updFn, hsid, hs] at hs'
          exact hs'.symm

/-- C8 amended: every successful cart mutation (add with a valid item,
remove) and every successful checkout on a valid session updates the
session's `last_active` to the current time; a checkout attempt rejected
for an empty cart leaves the state — including `last_active` — unchanged;
and no operation whose timestamp is at least the session's current
`last_active` ever decreases it (monotone non-decrease under a
non-decreasing clock). -/
theorem last_active_update_policy (st : ServerState) (now : Nat)
    (sid iid oid tx : String) (q : Int)
    (ci pi : Option (List (String × String))) (s : Session)
    (hs : st.sessions sid = some s) :
    (∀ item, findMenuItem st.menu iid = some item →
      ((add_to_cart st now sid iid q).2.sessions sid).map Session.last_active
        = some now) ∧
    ((remove_from_cart st now sid iid).2.sessions sid).map Session.last_active
      = some now ∧
    (s.cart ≠ [] →
      ((checkout st now oid tx sid ci pi).2.sessions sid).map Session.last_active
        = some now) ∧
    (s.cart = [] → (checkout st now oid tx sid ci pi).2 = st) ∧
    (∀ op s', s.last_active ≤ op.timeOf →
      (applyOp st op).sessions sid = some s' →
      s.last_active ≤ s'.last_active) := by
  refine ⟨?_, ?_, ?_, ?_, ?_⟩
  · intro item hit
    simp [add_to_cart, hs, hit, updFn]
  · simp [remove_from_cart, hs, updFn]
  · intro hne
    have hni : s.cart.isEmpty = false := by
      cases hc : s.cart with
      | nil => exact absurd hc hne
      | cons a as => rfl
    simp [checkout, hs, hni, updFn]
  · intro he
    simp [checkout, hs, he]
  · intro op s' hle hs'
    rcases applyOp_last_active st op sid s s' hs hs' with h | h
    · rw [h]
    · rw [h]; exact hle

theorem last_active_update_policy_witness :
    state1.sessions "s1" = some burgerSession ∧
    findMenuItem state1.menu "salad-01"
      = some (demoMenu.get ⟨1, by simp [demoMenu]⟩) ∧
    burgerSession.cart ≠ [] ∧ burgerSession.last_active ≤ Op.timeOf (.removeOp 8 "s1" "burger-01") ∧
    (((add_to_cart state1 7 "s1" "salad-01" 1).2.sessions "s1").map
        Session.last_active = some 7 ∧
      ((remove_from_cart state1 7 "s1" "burger-01").2.sessions "s1").map
        Session.last_active = some 7 ∧
      ((checkout state1 9 "ORD-2" "TXN-2" "s1" none none).2.sessions "s1").map
        Session.last_active = some 9 ∧
      burgerSession.last_active
        ≤ (Session.mk [] 0 8).last_active) :=
  ⟨by simp [state1], by simp [state1, findMenuItem, demoMenu],
   by simp [burgerSession], by simp [burgerSession, Op.timeOf],
   (last_active_update_policy state1 7 "s1" "salad-01" "ORD-2" "TXN-2" 1
       none none burgerSession (by simp [state1])).1
     (demoMenu.get ⟨1, by simp [demoMenu]⟩)
     (by simp [state1, findMenuItem, demoMenu]),
   (last_active_update_policy state1 7 "s1" "burger-01" "ORD-2" "TXN-2" 1
       none none burgerSession (by simp [state1])).2.1,
   (last_active_update_policy state1 9 "s1" "burger-01" "ORD-2" "TXN-2" 1
       none none burgerSession (by simp [state1])).2.2.1
     (by simp [burgerSession]),
   (last_active_update_policy state1 8 "s1" "burger-01" "ORD-2" "TXN-2" 1
       none none burgerSession (by simp [state1])).2.2.2.2
     (.removeOp 8 "s1" "burger-01") (Session.mk [] 0 8)
     (by simp [burgerSession, Op.timeOf])
     (by simp [applyOp, remove_from_cart, state1, burgerSession, updFn])⟩

/-- C9 counterexample: the code lowercases the preference before matching,
so "VEGAN" — a string that is not literally one of the recognized values
vegetarian / vegan / gluten_free — still filters the menu, and the result
differs from the identical query without a dietary preference. -/
theorem uppercase_preference_still_filters :
    find_items_by_criteria demoMenu (some "VEGAN") none none none ≠
      find_items_by_criteria demoMenu none none none none := by
  have hlow : strToLower "VEGAN" = "vegan" := by decide
  intro h
  have hlen := congrArg List.length h
  simp [find_items_by_criteria, applyDietary, hlow, demoMenu] at hlen

/-- C9 amended: any dietary preference whose lowercased form is not among
the recognized values vegetarian / vegan / gluten_free causes no dietary
filtering at all — the result equals that of the identical query without a
dietary preference (the request is not rejected). -/
theorem unknown_preference_no_filter (menu : List MenuItem) (pref : String)
    (mp : Option ℚ) (ea : Option (List String)) (cat : Option String)
    (h : ¬(strToLower pref = "vegetarian" ∨ strToLower pref = "vegan" ∨
           strToLower pref = "gluten_free")) :
    find_items_by_criteria menu (some pref) mp ea cat
      = find_items_by_criteria menu none mp ea cat := by
  push_neg at h
  obtain ⟨h1, h2, h3⟩ := h
  by_cases hp : pref = ""
  · simp [find_items_by_criteria, hp]
  · simp [find_items_by_criteria, hp, applyDietary, h1, h2, h3]

theorem unknown_preference_no_filter_witness :
    ¬(strToLower "spicy" = "vegetarian" ∨ strToLower "spicy" = "vegan" ∨
      strToLower "spicy" = "gluten_free") ∧
    find_items_by_criteria demoMenu (some "spicy") none none none
      = find_items_by_criteria demoMenu none none none none :=
  ⟨by decide,
   unknown_preference_no_filter demoMenu "spicy" none none none (by decide)⟩

theorem reported_totals_consistent_witness :
    computeTotal [] = 0 ∧
    (CartView.mk [CartLine.mk "burger-01" "Classic Burger" (17/2) 2] 17).total
      = computeTotal
          (CartView.mk [CartLine.mk "burger-01" "Classic Burger" (17/2) 2] 17).cart ∧
    (CartView.mk [] 0).total = computeTotal (CartView.mk [] 0).cart ∧
    (CartView.mk burgerSession.cart 17).total
      = computeTotal (CartView.mk burgerSession.cart 17).cart :=
  ⟨reported_totals_consistent.1,
   reported_totals_consistent.2.1 state0 7 "s1" "burger-01" 2
     (CartView.mk [CartLine.mk "burger-01" "Classic Burger" (17/2) 2] 17)
     (by simp [add_to_cart, state0, emptySession, demoMenu, findMenuItem,
               addLines, bumpQuantity, computeTotal]),
   reported_totals_consistent.2.2.1 state0 7 "s1" "burger-01"
     (CartView.mk [] 0)
     (by simp [remove_from_cart, state0, emptySession, computeTotal]),
   reported_totals_consistent.2.2.2 state1 "s1"
     (CartView.mk burgerSession.cart 17)
     (by simp [get_cart, state1, burgerSession, computeTotal])⟩
